import Mathlib

/-!
Verification of the email-cleaner repository (`src/gui_cleaner.py`).

Shallow embedding conventions:
* Python strings are sequences of Unicode code points, embedded as `List Nat`
  (`PyStr`).  String literals from the source are injected with `str`.
* Python floats are embedded as rationals (`ℚ`).  Every arithmetic step the
  scorer performs (`0.15 * hits`, `min 1.0 _`) is exact at the values relevant
  to the spec claims, so the rational embedding is faithful there.
* The optional remote scoring capability (the OpenAI client, the network call,
  `.strip()` and the `float(text)` parse inside the `try` block of
  `ai_deletion_score`) is embedded as an oracle of type
  `PyStr → Except Unit ℚ`: `.ok v` means the whole primary path produced the
  parsed number `v`, `.error ()` means some exception (network, parse,
  authorization) was raised inside the `try` block.  `none` for the oracle
  means `OPENAI_API_KEY` is unset or no client could be constructed.
* The Gmail service is embedded as an environment (`Env`) giving, per message
  id, the result of `get_snippet` (`Except Unit PyStr`, `.error` = exception)
  and whether `trash_message` succeeds.
-/

/-- A Python string as a sequence of Unicode code points. -/
abbrev PyStr := List Nat

/-- Inject a Lean string literal as a `PyStr` (code-point sequence). -/
def str (s : String) : PyStr := s.data.map Char.toNat

/-- `str.lower` on a single code point, at ASCII precision: the source's
keyword list and all inputs the claims touch are ASCII, where Python's
`lower` maps `A`–`Z` (65–90) to `a`–`z` (97–122) and fixes everything else. -/
def lowerChar (c : Nat) : Nat :=
  if 65 ≤ c ∧ c ≤ 90 then c + 32 else c

/-- `snippet.lower()`: case-fold every code point. -/
def pyLower (s : PyStr) : PyStr := s.map lowerChar

/-- Python substring containment `needle in hay`: some contiguous run of
`hay` equals `needle`, tested as "`needle` is a prefix of some suffix". -/
def substrIn (needle : PyStr) : PyStr → Bool
  | [] => List.isPrefixOf needle []
  | b :: bs => List.isPrefixOf needle (b :: bs) || substrIn needle bs

/-- The fixed keyword list of `cheap_fallback_score` (source lines 130–134). -/
def keywords : List PyStr :=
  [str "unsubscribe", str "promo", str "promotion", str "sale", str "deal",
   str "limited time", str "newsletter", str "marketing", str "advertisement",
   str "no-reply", str "noreply", str "casino", str "viagra", str "winner",
   str "congratulations", str "act now"]

/-- The number of keywords `k` with `k in snippet.lower()` (Python substring
containment), i.e. the final value of `hits` in `cheap_fallback_score`. -/
def hitCount (snippet : PyStr) : Nat :=
  List.countP (fun k => substrIn k (pyLower snippet)) keywords

/-- `cheap_fallback_score` (source lines 127–137): lowercase the snippet,
count keyword hits, return `min(1.0, 0.15 * hits)`. -/
def cheap_fallback_score (snippet : PyStr) : ℚ :=
  min 1 ((3 / 20 : ℚ) * hitCount snippet)

/-- The instruction template of `ai_deletion_score` (source lines 143–149),
with the snippet interpolated at its `f`-string slot. -/
def promptFor (snippet : PyStr) : PyStr :=
  str ("You are an email cleaning assistant. Given the email snippet, reply "
    ++ "with a single float between 0 and 1 indicating the probability this "
    ++ "email is clutter (promotions/ads/spam) that can be deleted.\n"
    ++ "Reply with ONLY the number.\n\nSNIPPET:\n") ++ snippet ++ str "\n"

/-- `ai_deletion_score` (source lines 139–169).  `remote = none` embeds
`not OPENAI_API_KEY or (_client is None and not _use_legacy_openai)`;
otherwise the oracle is called on the prompt, its `.ok` value is the parsed
float returned unmodified, and its `.error` is the caught exception on which
the function falls back to the heuristic. -/
def ai_deletion_score (remote : Option (PyStr → Except Unit ℚ))
    (snippet : PyStr) : ℚ :=
  match remote with
  | none => cheap_fallback_score snippet
  | some complete =>
    match complete (promptFor snippet) with
    | Except.ok v => v
    | Except.error _ => cheap_fallback_score snippet

/-- The Gmail service and remote-scorer environment a scan runs against. -/
structure Env where
  /-- The remote scoring oracle of `ai_deletion_score` (see above). -/
  remote : Option (PyStr → Except Unit ℚ)
  /-- Per message id, the result of `get_snippet`: `.ok s` is the returned
  snippet, `.error ()` an exception raised during the fetch. -/
  snippetOf : PyStr → Except Unit PyStr
  /-- Per message id, whether `trash_message` succeeds (`false` = raises). -/
  trashSucceeds : PyStr → Bool

/-- The terminal state of one message in the scan loop. -/
inductive Outcome where
  /-- `get_snippet` raised: warn and `continue` (lines 210–215). -/
  | fetchFailed : Outcome
  /-- `score < threshold`: "Keeping this email." (line 231). -/
  | kept : ℚ → Outcome
  /-- `score ≥ threshold`, preview mode: "[PREVIEW] Would delete" (line 223). -/
  | previewed : ℚ → Outcome
  /-- `score ≥ threshold`, not preview, `trash_message` succeeded (line 227). -/
  | deleted : ℚ → Outcome
  /-- `score ≥ threshold`, not preview, `trash_message` raised (line 229). -/
  | deleteFailed : ℚ → Outcome
deriving DecidableEq, Repr

/-- Whether an outcome classified the message as clutter (previewed or a
delete was attempted), as opposed to kept or skipped. -/
def Outcome.isClutter : Outcome → Bool
  | Outcome.previewed _ => true
  | Outcome.deleted _ => true
  | Outcome.deleteFailed _ => true
  | _ => false

/-- One iteration of the scan loop body (source lines 209–234) for message
`m`: its terminal `Outcome`, paired with the list of `trash_message`
invocations it performed (the id appears whether or not the trash call
succeeded, since a raising call was still invoked). -/
def processMessage (env : Env) (preview : Bool) (threshold : ℚ)
    (m : PyStr) : Outcome × List PyStr :=
  match env.snippetOf m with
  | Except.error _ => (Outcome.fetchFailed, [])
  | Except.ok snippet =>
    let score := ai_deletion_score env.remote snippet
    if threshold ≤ score then
      if preview then (Outcome.previewed score, [])
      else if env.trashSucceeds m then (Outcome.deleted score, [m])
      else (Outcome.deleteFailed score, [m])
    else (Outcome.kept score, [])

/-- The scan loop of the "Scan Inbox Now" handler (source lines 209–234):
process each listed message reference in order; return the per-message
outcomes and the concatenated list of `trash_message` invocations. -/
def scanLoop (env : Env) (preview : Bool) (threshold : ℚ) :
    List PyStr → List Outcome × List PyStr
  | [] => ([], [])
  | m :: rest =>
    let r := processMessage env preview threshold m
    let rs := scanLoop env preview threshold rest
    (r.1 :: rs.1, r.2 ++ rs.2)

/-- The message shown by the "Revoke Session" button handler. -/
inductive RevokeMsg where
  /-- "Token removed. You will re-auth next run." (success, line 193). -/
  | removed : RevokeMsg
  /-- "No token found." (info, line 195). -/
  | noToken : RevokeMsg
deriving DecidableEq, Repr

/-- `os.remove(TOKEN_FILE)` on a filesystem where the token file either
exists or not: returns the new existence state, or raises
`FileNotFoundError` (the `.error`) when the file is absent. -/
def osRemoveToken (tokenExists : Bool) : Except Unit Bool :=
  if tokenExists then Except.ok false else Except.error ()

/-- The "Revoke Session (delete token)" button handler (source lines
190–195): remove the token file; on `FileNotFoundError` show the
informational "No token found." message.  Returns the message shown and the
token file's existence afterwards. -/
def revokeSession (tokenExists : Bool) : RevokeMsg × Bool :=
  match osRemoveToken tokenExists with
  | Except.ok stillThere => (RevokeMsg.removed, stillThere)
  | Except.error _ => (RevokeMsg.noToken, tokenExists)

/-! ### Helper lemmas -/

theorem lowerChar_idem (c : Nat) : lowerChar (lowerChar c) = lowerChar c := by
  unfold lowerChar
  split
  · rw [if_neg (by omega)]
  · rfl

theorem pyLower_idem (s : PyStr) : pyLower (pyLower s) = pyLower s := by
  unfold pyLower
  rw [List.map_map]
  exact List.map_congr_left fun c _ => lowerChar_idem c

theorem fallback_score_nonneg (s : PyStr) : 0 ≤ cheap_fallback_score s := by
  unfold cheap_fallback_score
  exact le_min (by norm_num) (by positivity)

theorem fallback_score_le_one (s : PyStr) : cheap_fallback_score s ≤ 1 :=
  min_le_left 1 _

theorem processMessage_trash_of_preview (env : Env) (t : ℚ) (m : PyStr) :
    (processMessage env true t m).2 = [] := by
  unfold processMessage
  cases h : env.snippetOf m with
  | error e => rfl
  | ok s =>
    by_cases hs : t ≤ ai_deletion_score env.remote s <;> simp [hs]

/-- Whether the scan loop classifies message `m` as clutter: its snippet
fetch succeeds and the resulting score reaches the threshold. -/
def qualifies (env : Env) (t : ℚ) (m : PyStr) : Bool :=
  match env.snippetOf m with
  | Except.error _ => false
  | Except.ok s => decide (t ≤ ai_deletion_score env.remote s)

theorem processMessage_trash_of_not_preview (env : Env) (t : ℚ) (m : PyStr) :
    (processMessage env false t m).2 = if qualifies env t m then [m] else [] := by
  unfold processMessage qualifies
  cases h : env.snippetOf m with
  | error e => rfl
  | ok s =>
    by_cases hs : t ≤ ai_deletion_score env.remote s
    · by_cases htr : env.trashSucceeds m = true <;> simp [hs, htr]
    · simp [hs]

theorem scanLoop_outcomes (env : Env) (preview : Bool) (t : ℚ)
    (msgs : List PyStr) :
    (scanLoop env preview t msgs).1 =
      msgs.map (fun m => (processMessage env preview t m).1) := by
  induction msgs with
  | nil => rfl
  | cons m rest ih => simp [scanLoop, ih]

theorem scanLoop_trash_of_not_preview (env : Env) (t : ℚ) (msgs : List PyStr) :
    (scanLoop env false t msgs).2 = msgs.filter (qualifies env t) := by
  induction msgs with
  | nil => rfl
  | cons m rest ih =>
    simp only [scanLoop, ih, processMessage_trash_of_not_preview,
      List.filter_cons]
    by_cases h : qualifies env t m = true <;> simp [h]

theorem processMessage_of_fetch_error (env : Env) (preview : Bool) (t : ℚ)
    (m : PyStr) (h : env.snippetOf m = Except.error ()) :
    processMessage env preview t m = (Outcome.fetchFailed, []) := by
  unfold processMessage
  rw [h]

/-! ### Claims -/

/-- C4: for every excerpt the fallback scorer returns a value in [0,1]; its
output is monotone non-decreasing in the number of keyword hits, clamped at
1.0; and any excerpt with at least 7 keyword hits scores exactly 1.0. -/
theorem fallback_bounds_monotone_saturating (s t : PyStr) :
    (0 ≤ cheap_fallback_score s ∧ cheap_fallback_score s ≤ 1) ∧
    (hitCount s ≤ hitCount t →
      cheap_fallback_score s ≤ cheap_fallback_score t) ∧
    (7 ≤ hitCount s → cheap_fallback_score s = 1) := by
  refine ⟨⟨fallback_score_nonneg s, fallback_score_le_one s⟩,
    fun h => ?_, fun h => ?_⟩
  · unfold cheap_fallback_score
    exact min_le_min le_rfl
      (mul_le_mul_of_nonneg_left (by exact_mod_cast h) (by norm_num))
  · unfold cheap_fallback_score
    refine min_eq_left ?_
    calc (1 : ℚ) ≤ (3 / 20 : ℚ) * 7 := by norm_num
    _ ≤ (3 / 20 : ℚ) * hitCount s :=
        mul_le_mul_of_nonneg_left (by exact_mod_cast h) (by norm_num)

/-- An excerpt hitting exactly 7 of the keywords. -/
def sevenKwSnippet : PyStr :=
  str "unsubscribe promo sale deal newsletter casino winner"

/-- Witness for the C4 theorem: a 0-hit and a 7-hit excerpt. -/
theorem fallback_bounds_monotone_saturating_witness :
    cheap_fallback_score (str "Hello world") ≤
      cheap_fallback_score sevenKwSnippet ∧
    cheap_fallback_score sevenKwSnippet = 1 :=
  ⟨(fallback_bounds_monotone_saturating (str "Hello world")
      sevenKwSnippet).2.1 (by decide),
   (fallback_bounds_monotone_saturating sevenKwSnippet
      sevenKwSnippet).2.2 (by decide)⟩

/-- C5: an excerpt containing none of the keyword-list terms as substrings
(after case-folding) scores exactly 0.0 under the fallback scorer. -/
theorem fallback_zero_hits_zero_score (s : PyStr) (h : hitCount s = 0) :
    cheap_fallback_score s = 0 := by
  unfold cheap_fallback_score
  rw [h]
  norm_num

/-- Witness for C5 at a keyword-free excerpt. -/
theorem fallback_zero_hits_zero_score_witness :
    hitCount (str "Hi, dinner Friday?") = 0 ∧
    cheap_fallback_score (str "Hi, dinner Friday?") = 0 :=
  ⟨by decide, fallback_zero_hits_zero_score (str "Hi, dinner Friday?")
    (by decide)⟩

/-- C9: the fallback scorer is case-insensitive: scoring an excerpt equals
scoring its case-folded (lowercased) form. -/
theorem fallback_case_insensitive (s : PyStr) :
    cheap_fallback_score s = cheap_fallback_score (pyLower s) := by
  unfold cheap_fallback_score hitCount
  rw [pyLower_idem]

/-- C10: pressing "Revoke Session" with no stored token file does not
raise: the FileNotFoundError is caught and the informational message is
shown; with a token present the file is removed.  Revoke is safe to invoke
in either state. -/
theorem revoke_without_token_safe :
    revokeSession false = (RevokeMsg.noToken, false) ∧
    revokeSession true = (RevokeMsg.removed, false) :=
  ⟨rfl, rfl⟩

/-- C6: when the remote capability is absent/unconfigured, or any exception
is raised during the primary path, ai_deletion_score returns exactly the
fallback heuristic's score — no error propagates, no partial score. -/
theorem scorer_falls_back_silently (remote : Option (PyStr → Except Unit ℚ))
    (s : PyStr)
    (h : remote = none ∨
      ∃ r, remote = some r ∧ r (promptFor s) = Except.error ()) :
    ai_deletion_score remote s = cheap_fallback_score s := by
  rcases h with rfl | ⟨r, rfl, hr⟩
  · rfl
  · simp only [ai_deletion_score, hr]

/-- Witness for C6: an unconfigured remote, and a remote raising on every
call. -/
theorem scorer_falls_back_silently_witness :
    ai_deletion_score none (str "promo") = cheap_fallback_score (str "promo") ∧
    ai_deletion_score (some fun _ => Except.error ()) (str "promo") =
      cheap_fallback_score (str "promo") :=
  ⟨scorer_falls_back_silently none (str "promo") (Or.inl rfl),
   scorer_falls_back_silently (some fun _ => Except.error ()) (str "promo")
     (Or.inr ⟨_, rfl, rfl⟩)⟩

/-- C2: with preview mode on, trash_message is never invoked for any
message, whatever the environment, threshold, scores, or message list. -/
theorem preview_never_deletes (env : Env) (t : ℚ) (msgs : List PyStr) :
    (scanLoop env true t msgs).2 = [] := by
  induction msgs with
  | nil => rfl
  | cons m rest ih =>
    simp [scanLoop, processMessage_trash_of_preview, ih]

/-- C3: a message whose score exactly equals the threshold is classified as
clutter (previewed or delete attempted), never kept — the loop compares
with score >= threshold, not strict >. -/
theorem score_at_threshold_is_clutter (env : Env) (preview : Bool) (t : ℚ)
    (m s : PyStr) (hfetch : env.snippetOf m = Except.ok s)
    (hscore : ai_deletion_score env.remote s = t) :
    ((processMessage env preview t m).1).isClutter = true := by
  unfold processMessage
  rw [hfetch]
  simp only
  rw [if_pos (le_of_eq hscore.symm)]
  cases preview
  · by_cases htr : env.trashSucceeds m = true <;>
      simp [htr, Outcome.isClutter]
  · simp [Outcome.isClutter]

/-- Concrete scan environment: no remote scorer, every snippet fetch
returns "promo sale" (fallback score 3/10), every trash call succeeds. -/
def envPromoSale : Env :=
  Env.mk none (fun _ => Except.ok (str "promo sale")) (fun _ => true)

/-- Witness for C3: the threshold is set exactly to the message's score. -/
theorem score_at_threshold_is_clutter_witness :
    envPromoSale.snippetOf (str "a") = Except.ok (str "promo sale") ∧
    ai_deletion_score envPromoSale.remote (str "promo sale") =
      cheap_fallback_score (str "promo sale") ∧
    ((processMessage envPromoSale true
        (cheap_fallback_score (str "promo sale")) (str "a")).1).isClutter
      = true :=
  ⟨rfl, rfl,
   score_at_threshold_is_clutter envPromoSale true
     (cheap_fallback_score (str "promo sale")) (str "a")
     (str "promo sale") rfl rfl⟩

/-- C7: a snippet-fetch failure for one message skips only that message:
the outcomes of all earlier and all later references are exactly those of
processing them alone, so the run is not aborted. -/
theorem fetch_failure_skips_only_one (env : Env) (preview : Bool) (t : ℚ)
    (pre post : List PyStr) (m : PyStr)
    (h : env.snippetOf m = Except.error ()) :
    (scanLoop env preview t (pre ++ m :: post)).1 =
      (scanLoop env preview t pre).1 ++
        Outcome.fetchFailed :: (scanLoop env preview t post).1 := by
  induction pre with
  | nil =>
    simp [scanLoop, processMessage_of_fetch_error env preview t m h]
  | cons p ps ih => simp [scanLoop, ih]

/-- Environment whose snippet fetch raises exactly on id "x" and returns
"promo sale" elsewhere. -/
def envFailOnX : Env :=
  Env.mk none
    (fun m => if m = str "x" then Except.error ()
              else Except.ok (str "promo sale"))
    (fun _ => true)

/-- Witness for C7: the fetch of "x" fails; "a" before it and "b" after it
are still processed. -/
theorem fetch_failure_skips_only_one_witness :
    envFailOnX.snippetOf (str "x") = Except.error () ∧
    (scanLoop envFailOnX true (3 / 10) [str "a", str "x", str "b"]).1 =
      (scanLoop envFailOnX true (3 / 10) [str "a"]).1 ++
        Outcome.fetchFailed ::
          (scanLoop envFailOnX true (3 / 10) [str "b"]).1 :=
  ⟨rfl, fetch_failure_skips_only_one envFailOnX true (3 / 10)
    [str "a"] [str "b"] (str "x") rfl⟩

/-- C8: with preview mode off, a message classified clutter gets exactly
one trash_message invocation (counted whether or not the call succeeds),
and the loop still processes the whole list — a raising delete does not
abort the run. -/
theorem delete_invoked_exactly_once (env : Env) (t : ℚ) (msgs : List PyStr)
    (m : PyStr) (hcount : msgs.count m = 1)
    (hq : qualifies env t m = true) :
    ((scanLoop env false t msgs).2).count m = 1 ∧
    ((scanLoop env false t msgs).1).length = msgs.length := by
  constructor
  · rw [scanLoop_trash_of_not_preview, List.count_filter hq, hcount]
  · rw [scanLoop_outcomes, List.length_map]

/-- Environment for the C8 witness: no remote scorer, every fetch returns
"promo sale", every trash call raises. -/
def envTrashFails : Env :=
  Env.mk none (fun _ => Except.ok (str "promo sale")) (fun _ => false)

/-- Witness for C8: with the threshold set exactly to the snippet's score,
message "a" qualifies, its delete is invoked once and raises, and both
listed messages still get an outcome. -/
theorem delete_invoked_exactly_once_witness :
    ([str "a", str "b"].count (str "a") = 1) ∧
    qualifies envTrashFails (cheap_fallback_score (str "promo sale"))
      (str "a") = true ∧
    ((scanLoop envTrashFails false (cheap_fallback_score (str "promo sale"))
        [str "a", str "b"]).2).count (str "a") = 1 ∧
    ((scanLoop envTrashFails false (cheap_fallback_score (str "promo sale"))
        [str "a", str "b"]).1).length = 2 :=
  ⟨by decide, by simp [qualifies, envTrashFails, ai_deletion_score],
   (delete_invoked_exactly_once envTrashFails
     (cheap_fallback_score (str "promo sale")) [str "a", str "b"]
     (str "a") (by decide)
     (by simp [qualifies, envTrashFails, ai_deletion_score])).1,
   (delete_invoked_exactly_once envTrashFails
     (cheap_fallback_score (str "promo sale")) [str "a", str "b"]
     (str "a") (by decide)
     (by simp [qualifies, envTrashFails, ai_deletion_score])).2⟩

/-- C1 counterexample: with a configured remote whose reply parses to 2,
ai_deletion_score returns 2 — outside [0.0, 1.0].  The primary path returns
the parsed value unclamped, so the claim fails as stated. -/
theorem ai_score_in_unit_interval_counterexample :
    ai_deletion_score (some fun _ => Except.ok 2) (str "hello") = 2 ∧
    ¬ ai_deletion_score (some fun _ => Except.ok 2) (str "hello") ≤ 1 := by
  refine ⟨rfl, fun h => ?_⟩
  rw [show ai_deletion_score (some fun _ => Except.ok 2) (str "hello") = 2
    from rfl] at h
  norm_num at h

/-- C1 amended: the scorer's result is in [0.0, 1.0] whenever the fallback
heuristic is used (remote absent/unconfigured, or the primary path raises);
on a successful primary path the parsed remote reply is returned unclamped,
so the result then lies in [0.0, 1.0] only as far as the reply does. -/
theorem ai_score_in_unit_interval_amended
    (remote : Option (PyStr → Except Unit ℚ)) (s : PyStr) :
    (remote = none →
      0 ≤ ai_deletion_score remote s ∧ ai_deletion_score remote s ≤ 1) ∧
    (∀ r, remote = some r → r (promptFor s) = Except.error () →
      0 ≤ ai_deletion_score remote s ∧ ai_deletion_score remote s ≤ 1) ∧
    (∀ r v, remote = some r → r (promptFor s) = Except.ok v →
      ai_deletion_score remote s = v) := by
  refine ⟨?_, ?_, ?_⟩
  · rintro rfl
    exact ⟨fallback_score_nonneg s, fallback_score_le_one s⟩
  · rintro r rfl hr
    simp only [ai_deletion_score, hr]
    exact ⟨fallback_score_nonneg s, fallback_score_le_one s⟩
  · rintro r v rfl hr
    simp only [ai_deletion_score, hr]

/-- Witness for the amended C1: an unconfigured remote, a raising remote,
and a remote replying 3/4. -/
theorem ai_score_in_unit_interval_amended_witness :
    (0 ≤ ai_deletion_score none (str "hello") ∧
      ai_deletion_score none (str "hello") ≤ 1) ∧
    (0 ≤ ai_deletion_score (some fun _ => Except.error ()) (str "hello") ∧
      ai_deletion_score (some fun _ => Except.error ()) (str "hello") ≤ 1) ∧
    ai_deletion_score (some fun _ => Except.ok (3 / 4)) (str "hello")
      = 3 / 4 :=
  ⟨(ai_score_in_unit_interval_amended none (str "hello")).1 rfl,
   (ai_score_in_unit_interval_amended (some fun _ => Except.error ())
      (str "hello")).2.1 _ rfl rfl,
   (ai_score_in_unit_interval_amended (some fun _ => Except.ok (3 / 4))
      (str "hello")).2.2 _ (3 / 4) rfl rfl⟩
